import Mathlib

/-!
Shallow embedding of `src/libraries/LoknoButton/LoknoButton.h`, a
stability-timer debounce filter for a momentary push button.

Hardware interactions are made explicit parameters: `digitalRead` results
become a `Bool` argument (`HIGH = true`, `LOW = false`) and `millis()`
becomes a `Nat` argument `now` holding the 32-bit millisecond counter value.
`unsigned long` arithmetic is modelled as `Nat` reduced modulo `2^32`;
the C++ `int` arguments (`debounce_time`, the `ms` of `releasedFor`) are
modelled as `Int` and converted to their unsigned value (`toU32`) where the
C++ usual arithmetic conversions would convert them to `unsigned long`.
-/

/-- Modulus of the 32-bit `unsigned long` millisecond counter. -/
def u32 : Nat := 4294967296

/-- The value an `int` takes when converted to `unsigned long` in a
comparison (C++ usual arithmetic conversions): reduction modulo `2^32`. -/
def toU32 (i : Int) : Nat := (i % (4294967296 : Int)).toNat

/-- Unsigned 32-bit subtraction `a - b` on `unsigned long`, as computed by
`millis() - this->last_debounce_time`. -/
def sub32 (a b : Nat) : Nat := (a % u32 + (u32 - b % u32)) % u32

/-- State of a `LoknoButton` object: the fields of the C++ class. -/
structure LoknoButton where
  pin : Int
  debounce_time : Int
  active_low : Bool
  pressed : Bool
  changed : Bool
  last_state : Bool
  pullup_enable : Bool
  last_debounce_time : Nat
  deriving Repr, DecidableEq

/-- The C++ constructor: stores the configuration and initializes
`pressed(false), changed(false), last_state(HIGH), last_debounce_time(0)`
(`HIGH` is 1, i.e. `true`). -/
def mkLoknoButton (pin debounce_time : Int) (pullup_enable active_low : Bool) :
    LoknoButton :=
  { pin := pin, debounce_time := debounce_time, active_low := active_low,
    pressed := false, changed := false, last_state := true,
    pullup_enable := pullup_enable, last_debounce_time := 0 }

/-- Polarity handling shared by `begin` and `read`: the post-inversion
(logical) value of a raw electrical sample, `if (active_low) s = !s`. -/
def postInv (active_low raw : Bool) : Bool := if active_low then !raw else raw

/-- `LoknoButton::begin()`: one raw read seeds `pressed` (after polarity
inversion) and `last_state`; `changed` is cleared and
`last_debounce_time` is set to the current `millis()` value.
(The `pinMode` call only touches the hardware collaborator.) -/
def LoknoButton.begin (b : LoknoButton) (raw : Bool) (now : Nat) : LoknoButton :=
  let p := postInv b.active_low raw
  { b with pressed := p, last_state := p, changed := false,
           last_debounce_time := now % u32 }

/-- `LoknoButton::read()`: sample, invert if active-low, restart the
debounce window when the sample differs from `last_state`, then commit the
sample into `pressed` (setting `changed`) exactly when the elapsed unsigned
time strictly exceeds `debounce_time` and the sample differs from
`pressed`; finally store the sample into `last_state`. -/
def LoknoButton.read (b : LoknoButton) (raw : Bool) (now : Nat) : LoknoButton :=
  let curr_state := postInv b.active_low raw
  let ldt := if curr_state ≠ b.last_state then now % u32 else b.last_debounce_time
  if sub32 now ldt > toU32 b.debounce_time then
    if curr_state ≠ b.pressed then
      { b with pressed := curr_state, changed := true,
               last_state := curr_state, last_debounce_time := ldt }
    else
      { b with changed := false,
               last_state := curr_state, last_debounce_time := ldt }
  else
    { b with changed := false,
             last_state := curr_state, last_debounce_time := ldt }

/-- `LoknoButton::isPressed()`. -/
def LoknoButton.isPressed (b : LoknoButton) : Bool := b.pressed

/-- `LoknoButton::releasedFor(int ms)`: true iff not pressed and the
unsigned elapsed time since `last_debounce_time` is at least `ms`
(converted to `unsigned long`). -/
def LoknoButton.releasedFor (b : LoknoButton) (ms : Int) (now : Nat) : Bool :=
  if !b.pressed ∧ sub32 now b.last_debounce_time ≥ toU32 ms then true else false

/-- `LoknoButton::wasPressed()`. -/
def LoknoButton.wasPressed (b : LoknoButton) : Bool := b.changed && b.pressed

/-- `LoknoButton::wasReleased()`. -/
def LoknoButton.wasReleased (b : LoknoButton) : Bool := b.changed && !b.pressed

/-! Helper lemmas about the unsigned arithmetic and `read`. -/

/-- When the debounce window was restarted at this very poll, the elapsed
unsigned time is zero. -/
theorem sub32_self (n : Nat) : sub32 n (n % u32) = 0 := by
  unfold sub32 u32
  omega

/-- Wraparound correctness of `millis() - last_debounce_time`: as long as the
true elapsed distance is below `2^32`, the 32-bit modular difference of the
wrapped counter values is the true elapsed time. -/
theorem sub32_elapsed (t0 t1 : Nat) (h1 : t0 ≤ t1) (h2 : t1 - t0 < u32) :
    sub32 (t1 % u32) (t0 % u32) = t1 - t0 := by
  unfold sub32 u32 at *
  omega

/-- Case-split form of `read`: either the sample equals `last_state` and the
filter confirms exactly when the elapsed time strictly exceeds
`debounce_time` and the sample differs from `pressed`, or the sample differs
from `last_state`, the window restarts, and nothing is committed. -/
theorem read_eq (b : LoknoButton) (raw : Bool) (now : Nat) :
    b.read raw now =
      if postInv b.active_low raw = b.last_state then
        (if sub32 now b.last_debounce_time > toU32 b.debounce_time ∧
            postInv b.active_low raw ≠ b.pressed then
          { b with pressed := postInv b.active_low raw, changed := true,
                   last_state := postInv b.active_low raw }
        else
          { b with changed := false, last_state := postInv b.active_low raw })
      else
        { b with changed := false, last_state := postInv b.active_low raw,
                 last_debounce_time := now % u32 } := by
  unfold LoknoButton.read
  by_cases hs : postInv b.active_low raw = b.last_state
  · by_cases hd : sub32 now b.last_debounce_time > toU32 b.debounce_time
    · by_cases hp : postInv b.active_low raw = b.pressed
      · simp [hs, hd, hp]
      · simp [hs, hd, hp]
    · simp [hs, hd]
  · have h0 : sub32 now (now % u32) = 0 := sub32_self now
    simp [hs, h0]

/-- A poll that reports no change leaves the debounced state untouched. -/
theorem read_no_change_same_pressed (c : LoknoButton) (r : Bool) (n : Nat) :
    (c.read r n).changed = false → (c.read r n).pressed = c.pressed := by
  rw [read_eq]
  split
  · split
    · intro h
      exact absurd h (by simp)
    · intro _
      rfl
  · intro _
    rfl

/-! Claim theorems. -/

/-- C1 counterexample: at a poll where the raw post-inversion input has
persisted (`= last_state`), the elapsed time exactly equals the debounce
interval (50 = 50, so elapsed ≥ interval), and the raw value differs from
`pressed`, the code still reports `changed = false` and leaves `pressed`
unchanged — the claim's "exact equality already confirms" is false. -/
theorem C1_exact_equality_counterexample :
    postInv (mkLoknoButton 2 50 false false).active_low true
      = (mkLoknoButton 2 50 false false).last_state ∧
    postInv (mkLoknoButton 2 50 false false).active_low true
      ≠ (mkLoknoButton 2 50 false false).pressed ∧
    toU32 (mkLoknoButton 2 50 false false).debounce_time
      ≤ sub32 50 (mkLoknoButton 2 50 false false).last_debounce_time ∧
    ((mkLoknoButton 2 50 false false).read true 50).changed = false ∧
    ((mkLoknoButton 2 50 false false).read true 50).pressed
      = (mkLoknoButton 2 50 false false).pressed := by
  decide

/-- C1 (amended): a poll at which the raw post-inversion input has persisted
unchanged (equals `last_state`) for an elapsed time STRICTLY GREATER than
`debounce_time`, and that value differs from `pressed`, sets `changed` to
true and commits the value into `pressed`, so `isPressed` returns the new
value; and any later poll reporting no change leaves `pressed` untouched.
Exact equality of elapsed time and interval does not confirm. -/
theorem C1_confirm_after_threshold (b : LoknoButton) (raw : Bool) (now : Nat)
    (hstable : postInv b.active_low raw = b.last_state)
    (helapsed : sub32 now b.last_debounce_time > toU32 b.debounce_time)
    (hdiff : postInv b.active_low raw ≠ b.pressed) :
    (b.read raw now).changed = true ∧
    (b.read raw now).pressed = postInv b.active_low raw ∧
    (b.read raw now).isPressed = postInv b.active_low raw ∧
    ∀ (c : LoknoButton) (r : Bool) (n : Nat),
      (c.read r n).changed = false → (c.read r n).pressed = c.pressed := by
  rw [read_eq, if_pos hstable, if_pos ⟨helapsed, hdiff⟩]
  exact ⟨rfl, rfl, rfl, read_no_change_same_pressed⟩

/-- C1 witness: a concrete confirming poll at elapsed 51 > interval 50. -/
theorem C1_confirm_witness :
    ((mkLoknoButton 2 50 false false).read true 51).changed = true ∧
    ((mkLoknoButton 2 50 false false).read true 51).pressed = true :=
  ⟨(C1_confirm_after_threshold (mkLoknoButton 2 50 false false) true 51
      (by decide) (by decide) (by decide)).1,
   (C1_confirm_after_threshold (mkLoknoButton 2 50 false false) true 51
      (by decide) (by decide) (by decide)).2.1⟩

/-- C2: while the elapsed time since the last raw-input change (after the
window restart of this poll, if any) is below the debounce interval, a poll
leaves `pressed` unchanged and sets `changed` to false. -/
theorem C2_window_no_change (b : LoknoButton) (raw : Bool) (now : Nat)
    (h : sub32 now (if postInv b.active_low raw ≠ b.last_state then now % u32
                    else b.last_debounce_time) < toU32 b.debounce_time) :
    (b.read raw now).changed = false ∧ (b.read raw now).pressed = b.pressed := by
  rw [read_eq]
  by_cases hs : postInv b.active_low raw = b.last_state
  · rw [if_pos hs]
    rw [if_neg (not_not_intro hs)] at h
    rw [if_neg]
    · exact ⟨rfl, rfl⟩
    · rintro ⟨hgt, -⟩
      omega
  · rw [if_neg hs]
    exact ⟨rfl, rfl⟩

/-- C2 witness: 10 ms into a 50 ms window, a poll reports no change. -/
theorem C2_window_witness :
    sub32 10 (if postInv (mkLoknoButton 2 50 false false).active_low true
                 ≠ (mkLoknoButton 2 50 false false).last_state then 10 % u32
              else (mkLoknoButton 2 50 false false).last_debounce_time)
      < toU32 (mkLoknoButton 2 50 false false).debounce_time ∧
    ((mkLoknoButton 2 50 false false).read true 10).changed = false ∧
    ((mkLoknoButton 2 50 false false).read true 10).pressed = false :=
  ⟨by decide, (C2_window_no_change (mkLoknoButton 2 50 false false) true 10
      (by decide)).1,
   (C2_window_no_change (mkLoknoButton 2 50 false false) true 10
      (by decide)).2⟩

/-- C3: `releasedFor(durationMs)` returns true iff the button is currently
released and the unsigned elapsed time `now - last_debounce_time` (time since
the last raw transition start) is at least `durationMs`; concretely, while
released, 120 ms elapsed makes `releasedFor 100` true and 50 ms elapsed makes
it false. -/
theorem C3_releasedFor_iff (b : LoknoButton) (ms : Int) (now : Nat) :
    (b.releasedFor ms now = true ↔
      b.pressed = false ∧ toU32 ms ≤ sub32 now b.last_debounce_time) ∧
    (mkLoknoButton 2 50 false false).releasedFor 100 120 = true ∧
    (mkLoknoButton 2 50 false false).releasedFor 100 50 = false := by
  refine ⟨?_, by decide, by decide⟩
  unfold LoknoButton.releasedFor
  split
  · next hc =>
    simp only [true_iff]
    exact ⟨by simpa using hc.1, hc.2⟩
  · next hc =>
    simp only [Bool.false_eq_true, false_iff]
    intro hcon
    exact hc ⟨by simp [hcon.1], hcon.2⟩

/-- C4: on every `read()`, `last_debounce_time` is set to the current clock
value exactly when the post-inversion sample differs from `last_state`
(otherwise it is kept), and the sample is unconditionally stored into
`last_state`. -/
theorem C4_timestamp_and_last_state (b : LoknoButton) (raw : Bool) (now : Nat) :
    (b.read raw now).last_state = postInv b.active_low raw ∧
    (b.read raw now).last_debounce_time =
      (if postInv b.active_low raw ≠ b.last_state then now % u32
       else b.last_debounce_time) := by
  rw [read_eq]
  by_cases hs : postInv b.active_low raw = b.last_state
  · rw [if_pos hs, if_neg (not_not_intro hs)]
    split
    · exact ⟨rfl, rfl⟩
    · exact ⟨rfl, rfl⟩
  · rw [if_neg hs, if_pos hs]
    exact ⟨rfl, rfl⟩

/-- C5: after `begin`, `pressed` and `last_state` both hold the single
(post-inversion) raw reading, `changed` is false, `last_debounce_time` is the
clock value of the call; with `active_low = true` and an electrically low
reading, `isPressed` is true right after `begin` while `wasPressed` and
`wasReleased` are false. -/
theorem C5_begin_seeds_state (b : LoknoButton) (raw : Bool) (now : Nat) :
    (b.begin raw now).pressed = postInv b.active_low raw ∧
    (b.begin raw now).last_state = postInv b.active_low raw ∧
    (b.begin raw now).changed = false ∧
    (b.begin raw now).last_debounce_time = now % u32 ∧
    (b.begin raw now).isPressed = postInv b.active_low raw ∧
    (b.begin raw now).wasPressed = false ∧
    (b.begin raw now).wasReleased = false ∧
    (b.active_low = true → raw = false → (b.begin raw now).isPressed = true) := by
  refine ⟨rfl, rfl, rfl, rfl, rfl, rfl, rfl, ?_⟩
  intro ha hr
  simp [LoknoButton.begin, LoknoButton.isPressed, postInv, ha, hr]

/-- C5 witness: active-low button, electrically low at `begin` time. -/
theorem C5_begin_witness :
    ((mkLoknoButton 2 50 false true).begin false 7).isPressed = true :=
  (C5_begin_seeds_state (mkLoknoButton 2 50 false true) false 7).2.2.2.2.2.2.2
    rfl rfl

/-- C6: whenever the raw post-inversion sample equals the current debounced
state, `read()` reports `changed = false` and keeps `pressed`, no matter how
much time has elapsed — no repeated change ticks for a steady state. -/
theorem C6_steady_state_idempotent (b : LoknoButton) (raw : Bool) (now : Nat)
    (h : postInv b.active_low raw = b.pressed) :
    (b.read raw now).changed = false ∧ (b.read raw now).pressed = b.pressed := by
  rw [read_eq]
  by_cases hs : postInv b.active_low raw = b.last_state
  · rw [if_pos hs, if_neg]
    · exact ⟨rfl, rfl⟩
    · rintro ⟨-, hne⟩
      exact hne h
  · rw [if_neg hs]
    exact ⟨rfl, rfl⟩

/-- C6 witness: steady released input long after the interval, no tick. -/
theorem C6_steady_witness :
    postInv (mkLoknoButton 2 50 false false).active_low false
      = (mkLoknoButton 2 50 false false).pressed ∧
    ((mkLoknoButton 2 50 false false).read false 100000).changed = false ∧
    ((mkLoknoButton 2 50 false false).read false 100000).pressed = false :=
  ⟨by decide,
   (C6_steady_state_idempotent (mkLoknoButton 2 50 false false) false 100000
      (by decide)).1,
   (C6_steady_state_idempotent (mkLoknoButton 2 50 false false) false 100000
      (by decide)).2⟩

/-- C7: in every state, `wasPressed` is true iff `changed` and `pressed` are
both true, `wasReleased` is true iff `changed` is true and `pressed` is
false; they are never both true, and both are false whenever `changed` is
false. -/
theorem C7_edge_accessors (b : LoknoButton) :
    (b.wasPressed = true ↔ b.changed = true ∧ b.pressed = true) ∧
    (b.wasReleased = true ↔ b.changed = true ∧ b.pressed = false) ∧
    ¬(b.wasPressed = true ∧ b.wasReleased = true) ∧
    (b.changed = false → b.wasPressed = false ∧ b.wasReleased = false) := by
  cases hc : b.changed <;> cases hp : b.pressed <;>
    simp [LoknoButton.wasPressed, LoknoButton.wasReleased, hc, hp]

/-- C7 witness: a state with `changed = false` has both edge accessors
false. -/
theorem C7_edge_witness :
    (mkLoknoButton 2 50 false false).wasPressed = false ∧
    (mkLoknoButton 2 50 false false).wasReleased = false :=
  (C7_edge_accessors (mkLoknoButton 2 50 false false)).2.2.2 rfl

/-- C8: `pressed` is mutated only by `read` (besides the seeding in `begin`),
and a `read` that changes it requires the sample to have persisted
(`= last_state`) with elapsed time at least (indeed strictly above) the
debounce interval; the accessors are pure functions of the state — in this
embedding they take the state and return only a `Bool`, and their values are
exactly the projections below, so calling them leaves every field
unchanged. -/
theorem C8_accessors_pure_and_guarded_commit (b : LoknoButton) (raw : Bool)
    (now : Nat) (ms : Int) :
    ((b.read raw now).pressed ≠ b.pressed →
       postInv b.active_low raw = b.last_state ∧
       toU32 b.debounce_time ≤ sub32 now b.last_debounce_time) ∧
    b.isPressed = b.pressed ∧
    b.wasPressed = (b.changed && b.pressed) ∧
    b.wasReleased = (b.changed && !b.pressed) ∧
    b.releasedFor ms now =
      (if b.pressed = false ∧ toU32 ms ≤ sub32 now b.last_debounce_time
       then true else false) := by
  refine ⟨?_, rfl, rfl, rfl, ?_⟩
  · intro hp
    rw [read_eq] at hp
    by_cases hs : postInv b.active_low raw = b.last_state
    · rw [if_pos hs] at hp
      refine ⟨hs, ?_⟩
      by_cases hd : sub32 now b.last_debounce_time > toU32 b.debounce_time ∧
          postInv b.active_low raw ≠ b.pressed
      · exact Nat.le_of_lt hd.1
      · rw [if_neg hd] at hp
        exact absurd rfl hp
    · rw [if_neg hs] at hp
      exact absurd rfl hp
  · unfold LoknoButton.releasedFor
    by_cases hc : b.pressed = false ∧ toU32 ms ≤ sub32 now b.last_debounce_time
    · rw [if_pos hc, if_pos ⟨by simp [hc.1], hc.2⟩]
    · rw [if_neg hc, if_neg]
      intro hcon
      exact hc ⟨by simpa using hcon.1, hcon.2⟩

/-- C8 witness: a concrete `read` that commits a new `pressed` value did see
a persisted sample and an elapsed time at least the interval. -/
theorem C8_commit_witness :
    postInv (mkLoknoButton 2 50 false false).active_low true
      = (mkLoknoButton 2 50 false false).last_state ∧
    toU32 (mkLoknoButton 2 50 false false).debounce_time
      ≤ sub32 60 (mkLoknoButton 2 50 false false).last_debounce_time :=
  (C8_accessors_pure_and_guarded_commit (mkLoknoButton 2 50 false false)
      true 60 0).1 (by decide)

/-- C9: elapsed-time computation is wraparound-safe. For true clock instants
`t0 ≤ t1` less than `2^32` ms apart, the unsigned modular difference of the
wrapped 32-bit counter values equals the true elapsed time, so the
comparisons of `read` (against `debounce_time`) and `releasedFor` (against
`ms`) are correct even when the counter wrapped between the two readings. -/
theorem C9_wraparound_safe (t0 t1 : Nat) (h1 : t0 ≤ t1) (h2 : t1 - t0 < u32) :
    sub32 (t1 % u32) (t0 % u32) = t1 - t0 ∧
    (∀ (d : Int), sub32 (t1 % u32) (t0 % u32) > toU32 d ↔ t1 - t0 > toU32 d) ∧
    (∀ (b : LoknoButton) (ms : Int), b.last_debounce_time = t0 % u32 →
      b.releasedFor ms (t1 % u32) =
        (if b.pressed = false ∧ toU32 ms ≤ t1 - t0 then true else false)) := by
  have he := sub32_elapsed t0 t1 h1 h2
  refine ⟨he, fun d => by rw [he], fun b ms hb => ?_⟩
  unfold LoknoButton.releasedFor
  rw [hb, he]
  by_cases hc : b.pressed = false ∧ toU32 ms ≤ t1 - t0
  · rw [if_pos hc, if_pos ⟨by simp [hc.1], hc.2⟩]
  · rw [if_neg hc, if_neg]
    intro hcon
    exact hc ⟨by simpa using hcon.1, hcon.2⟩

/-- C9 witness: the counter wraps between timestamp `2^32 - 10` and reading
`2^32 + 20`, yet the computed elapsed time is the true 30 ms. -/
theorem C9_wraparound_witness :
    (4294967286 : Nat) ≤ 4294967316 ∧ (4294967316 : Nat) - 4294967286 < u32 ∧
    sub32 (4294967316 % u32) (4294967286 % u32) = 30 :=
  ⟨by decide, by decide,
   (C9_wraparound_safe 4294967286 4294967316 (by decide) (by decide)).1⟩

/-- C10: a negative duration `ms` is converted to the unsigned value
`ms + 2^32` by the comparison in `releasedFor`, so whenever the unsigned
elapsed time is below that huge value the call returns false — it does not
behave as "elapsed at least a negative number", which would always hold. -/
theorem C10_negative_duration (b : LoknoButton) (ms : Int) (now : Nat)
    (hneg : ms < 0) (hlo : -(4294967296 : Int) ≤ ms)
    (helapsed : sub32 now b.last_debounce_time < toU32 ms) :
    toU32 ms = (ms + 4294967296).toNat ∧ b.releasedFor ms now = false := by
  constructor
  · unfold toU32
    omega
  · unfold LoknoButton.releasedFor
    rw [if_neg]
    rintro ⟨-, hge⟩
    exact absurd helapsed (Nat.not_lt.mpr hge)

/-- C10 witness: a released button 10 ms into its window answers false to
`releasedFor (-5)`, because `-5` converts to `2^32 - 5`. -/
theorem C10_negative_witness :
    ((-5 : Int) < 0) ∧
    sub32 10 (mkLoknoButton 2 50 false false).last_debounce_time
      < toU32 (-5) ∧
    toU32 (-5) = ((-5 : Int) + 4294967296).toNat ∧
    (mkLoknoButton 2 50 false false).releasedFor (-5) 10 = false :=
  ⟨by decide, by decide,
   (C10_negative_duration (mkLoknoButton 2 50 false false) (-5) 10
      (by decide) (by decide) (by decide)).1,
   (C10_negative_duration (mkLoknoButton 2 50 false false) (-5) 10
      (by decide) (by decide) (by decide)).2⟩
